import Mathlib

/-!
Verification of the navigation core of the SMPY field-GPS single-page app
(`src/app.js`), shallowly embedded in Lean 4.

Numbers are modelled as exact rationals.  The transcendental geometry
primitives supplied by external libraries (turf.bearing, turf.distance,
proj4 forward/inverse Transverse Mercator) are abstracted as function
parameters bundled in a `Geo` record: every claim below is about how the
application code uses those primitives, not about their internal numerics.
JavaScript strings are modelled as lists of characters.
-/

namespace FieldGps

/-- JavaScript `Math.round`: round half up, i.e. `⌊x + 1/2⌋`. -/
def jsRound (q : ℚ) : ℤ := ⌊q + 1 / 2⌋

/-- JavaScript remainder operator `x % y` (sign of the dividend),
for a positive modulus. -/
def jsMod (x y : ℚ) : ℚ :=
  if 0 ≤ x then x - y * ⌊x / y⌋ else -(-x - y * ⌊-x / y⌋)

/-- JavaScript lexicographic string comparison `a < b`
(UTF-16 code-unit order; an empty string precedes any non-empty one). -/
def jsStrLt : List Char → List Char → Bool
  | [], [] => false
  | [], _ :: _ => true
  | _ :: _, [] => false
  | a :: as, b :: bs => if a < b then true else if b < a then false else jsStrLt as bs

/-- The geometry primitives the app obtains from external libraries
(turf and proj4).  `bearing fromLat fromLon toLat toLon` is turf's raw
initial bearing; `distance lon1 lat1 lon2 lat2` is turf's great-circle
distance in meters; `tmForward lat lon` is proj4's ellipsoidal Transverse
Mercator forward projection (easting, northing) for the point's own
zone/hemisphere; `tmInverse zone isNorthern easting northing` is the
inverse projection returning (lon, lat). -/
structure Geo where
  bearing : ℚ → ℚ → ℚ → ℚ → ℚ
  distance : ℚ → ℚ → ℚ → ℚ → ℚ
  tmForward : ℚ → ℚ → ℚ × ℚ
  tmInverse : ℤ → Bool → ℚ → ℚ → ℚ × ℚ

/-- A concrete geometry instance with constant bearing `b` and constant
distance `d`, used to evaluate the model at concrete inputs. -/
def constGeo (b d : ℚ) : Geo :=
  { bearing := fun _ _ _ _ => b
    distance := fun _ _ _ _ => d
    tmForward := fun _ _ => (0, 0)
    tmInverse := fun _ _ _ _ => (0, 0) }

/-- A UTM coordinate as produced by `toUtm` in `src/app.js`. -/
structure Utm where
  zone : ℤ
  band : Char
  easting : ℤ
  northing : ℤ
deriving DecidableEq

/-- The 20-letter UTM latitude-band table from `latToBand` (`src/app.js:53`). -/
def utmBands : List Char := "CDEFGHJKLMNPQRSTUVWX".data

/-- `getUtmZone` (`src/app.js:34`): `Math.floor((longitude + 180) / 6) + 1`. -/
def getUtmZone (longitude : ℚ) : ℤ := ⌊(longitude + 180) / 6⌋ + 1

/-- `latToBand` (`src/app.js:52`): index `⌊(lat + 80) / 8⌋` into the band
table, clamped to `[0, bands.length - 1]`. -/
def latToBand (lat : ℚ) : Char :=
  let index : ℤ := ⌊(lat + 80) / 8⌋
  utmBands.getD (max 0 (min ((utmBands.length : ℤ) - 1) index)).toNat 'C'

/-- `toUtm` (`src/app.js:45`): zone from longitude, band from latitude,
easting/northing from the projection forward transform, rounded to whole
meters with `Math.round`. -/
def toUtm (g : Geo) (lat lon : ℚ) : Utm :=
  let en := g.tmForward lat lon
  { zone := getUtmZone lon
    band := latToBand lat
    easting := jsRound en.1
    northing := jsRound en.2 }

/-- A JavaScript number-or-null field that may also be NaN
(the geolocation `heading` field). -/
inductive JsNum where
  | null
  | nan
  | val (q : ℚ)
deriving DecidableEq

/-- One position fix from the geolocation provider (`pos.coords` plus
`pos.timestamp` as consumed by `onPosition`, `src/app.js:197`). -/
structure GeoFix where
  latitude : ℚ
  longitude : ℚ
  altitude : Option ℚ
  accuracy : Option ℚ
  speed : Option ℚ
  heading : JsNum
  timestamp : ℕ
deriving DecidableEq

/-- A waypoint record as built in `addWaypointFromCurrent` /
`addWaypointRaw` / `saveAveragedPoint` (`src/app.js`).  Ids (JavaScript
strings) are lists of characters; the ISO timestamp string is abstracted
to the clock reading that produced it. -/
structure Waypoint where
  id : List Char
  lat : ℚ
  lon : ℚ
  altitudeM : Option ℚ
  accuracyM : Option ℚ
  utmZone : ℤ
  utmBand : Char
  easting : ℤ
  northing : ℤ
  timestamp : ℕ
  wpType : Option (List Char)
  note : Option (List Char)
deriving DecidableEq

/-- One sample of an averaging session (`{lat, lon, acc}`,
`src/app.js:246`). -/
structure AvgSample where
  lat : ℚ
  lon : ℚ
  acc : Option ℚ
deriving DecidableEq

/-- The averaging session state (`averaging`, `src/app.js:30`). -/
structure Averaging where
  active : Bool
  samples : List AvgSample
deriving DecidableEq

/-- The settings object (`settings`, `src/app.js:22`). -/
structure Settings where
  maxAccM : ℚ
  alertRadiusM : ℚ
deriving DecidableEq

/-- The initial settings value `{ maxAccM: 20, alertRadiusM: 30 }`
(`src/app.js:22`). -/
def defaultSettings : Settings := { maxAccM := 20, alertRadiusM := 30 }

/-- One CSV log row (`src/app.js:252`), abstracted to the values the
template string embeds. -/
structure CsvRow where
  time : ℕ
  lat : ℚ
  lon : ℚ
  alt : Option ℚ
  acc : Option ℚ
  speedKmh : Option ℚ
deriving DecidableEq

/-- The mutable module state of `src/app.js` that the claims touch. -/
structure AppState where
  trackCoords : List (ℚ × ℚ)
  waypoints : List Waypoint
  settings : Settings
  speedHistory : List ℚ
  altHistory : List ℚ
  trackingEnabled : Bool
  averaging : Averaging
  loggingActive : Bool
  csvRows : List CsvRow
deriving DecidableEq

/-- `HIST_LIMIT` (`src/app.js:25`). -/
def HIST_LIMIT : ℕ := 60

/-- The rolling-history update idiom of `src/app.js:232`:
`h.push(v); if (h.length > HIST_LIMIT) h.shift();`. -/
def pushHist (h : List ℚ) (v : ℚ) : List ℚ :=
  let h2 := h ++ [v]
  if HIST_LIMIT < h2.length then h2.tail else h2

/-- `computeCourseFromTrack` (`src/app.js:261`): `null` when the track is
empty, otherwise turf's bearing from the last track point to the current
point, normalized by `(bearing + 360) % 360`. -/
def computeCourseFromTrack (g : Geo) (track : List (ℚ × ℚ)) (lat lon : ℚ) :
    Option ℚ :=
  match track.getLast? with
  | none => none
  | some p => some (jsMod (g.bearing p.1 p.2 lat lon + 360) 360)

/-- The distance `turf.distance([lon, lat], [w.lon, w.lat])` used in
`checkProximityAlerts` (`src/app.js:1060`). -/
def distTo (g : Geo) (lat lon : ℚ) (w : Waypoint) : ℚ :=
  g.distance lon lat w.lon w.lat

/-- The loop body of `checkProximityAlerts` (`src/app.js:1059`):
`const d = turf.distance(...); if (d < nearestD) update` — the candidate
is replaced only on a strict decrease, so the first waypoint wins ties.
`none` models the initial `nearestD = Infinity`. -/
def scanStep (g : Geo) (lat lon : ℚ) (acc : Option (Waypoint × ℚ))
    (w : Waypoint) : Option (Waypoint × ℚ) :=
  let d := distTo g lat lon w
  match acc with
  | none => some (w, d)
  | some wd => if d < wd.2 then some (w, d) else acc

/-- The nearest-waypoint scan of `checkProximityAlerts`
(`src/app.js:1058`). -/
def nearestScan (g : Geo) (lat lon : ℚ) (ws : List Waypoint) :
    Option (Waypoint × ℚ) :=
  ws.foldl (scanStep g lat lon) none

/-- `checkProximityAlerts` (`src/app.js:1056`): no alert on an empty
waypoint collection; otherwise an alert for the nearest waypoint exactly
when its distance is at most `settings.alertRadiusM`. -/
def checkProximityAlerts (g : Geo) (settings : Settings) (ws : List Waypoint)
    (lat lon : ℚ) : Option (Waypoint × ℚ) :=
  if ws.isEmpty then none
  else
    match nearestScan g lat lon ws with
    | none => none
    | some wd => if wd.2 ≤ settings.alertRadiusM then some wd else none

/-- The outcome of one `onPosition` call: the new state, the derived
course shown on the heading indicator, the proximity alert raised (if
any), and whether the navigation overlay was recomputed. -/
structure PosResult where
  state : AppState
  course : Option ℚ
  alert : Option (Waypoint × ℚ)
  navUpdated : Bool
deriving DecidableEq

/-- The part of `onPosition` after the accuracy gate (`src/app.js:238`):
proximity alert, navigation overlay, averaging ingest, CSV logging. -/
def afterGate (g : Geo) (st2 : AppState) (fix : GeoFix) (hdg : Option ℚ) :
    PosResult :=
  let alert := checkProximityAlerts g st2.settings st2.waypoints
    fix.latitude fix.longitude
  let averaging2 :=
    if st2.averaging.active then
      { st2.averaging with
        samples := st2.averaging.samples ++
          [{ lat := fix.latitude, lon := fix.longitude, acc := fix.accuracy }] }
    else st2.averaging
  let speedKmh : Option ℚ := fix.speed.map (fun s => s * 3.6)
  let csv2 :=
    if st2.loggingActive then
      st2.csvRows ++
        [{ time := fix.timestamp, lat := fix.latitude, lon := fix.longitude,
           alt := fix.altitude, acc := fix.accuracy, speedKmh := speedKmh }]
    else st2.csvRows
  { state := { st2 with averaging := averaging2, csvRows := csv2 }
    course := hdg
    alert := alert
    navUpdated := true }

/-- `onPosition` (`src/app.js:197`): derives the course (reported heading
when present and not NaN, else the course from the track), appends the
fix to the track unconditionally, appends to the speed/altitude history
buffers when those fields are present, then either returns early at the
accuracy gate (`accuracy != null && accuracy > settings.maxAccM`) or
continues with alerting, navigation, averaging and CSV logging. -/
def onPosition (g : Geo) (st : AppState) (fix : GeoFix) : PosResult :=
  let speedKmh : Option ℚ := fix.speed.map (fun s => s * 3.6)
  let hdg : Option ℚ :=
    match fix.heading with
    | JsNum.val h => some h
    | _ => computeCourseFromTrack g st.trackCoords fix.latitude fix.longitude
  let track2 := st.trackCoords ++ [(fix.latitude, fix.longitude)]
  let speedHistory2 :=
    match speedKmh with
    | some v => pushHist st.speedHistory v
    | none => st.speedHistory
  let altHistory2 :=
    match fix.altitude with
    | some a => pushHist st.altHistory a
    | none => st.altHistory
  let st2 := { st with
    trackCoords := track2
    speedHistory := speedHistory2
    altHistory := altHistory2 }
  match fix.accuracy with
  | some a =>
    if st.settings.maxAccM < a then
      { state := st2, course := hdg, alert := none, navUpdated := false }
    else afterGate g st2 fix hdg
  | none => afterGate g st2 fix hdg

/-- The decimal digit string of `n.toString()` for a JavaScript
non-negative integer such as `Date.now()`. -/
def jsNatToString (n : ℕ) : List Char := Nat.toDigits 10 n

/-- The id `Date.now().toString()` of a manually marked waypoint
(`src/app.js:316`). -/
def manualWaypointId (now : ℕ) : List Char := jsNatToString now

/-- The averaged-waypoint id tag: the four leading characters of the
template literal `AVG-` followed by `Date.now()` (`src/app.js:1220`). -/
def avgTag : List Char := ['A', 'V', 'G', '-']

/-- The full averaged-waypoint id (`src/app.js:1220`). -/
def avgId (now : ℕ) : List Char := avgTag ++ jsNatToString now

/-- `resetAveraging` (`src/app.js:1196`). -/
def resetAveraging : Averaging := { active := false, samples := [] }

/-- `startAveraging` (`src/app.js:1197`). -/
def startAveraging (_a : Averaging) : Averaging :=
  { active := true, samples := [] }

/-- `stopAveraging` (`src/app.js:1198`). -/
def stopAveraging (a : Averaging) : Averaging := { a with active := false }

/-- The arithmetic mean of the sample latitudes
(`samples.reduce((s,p)=>s+p.lat,0)/samples.length`, `src/app.js:1215`). -/
def avgLatOf (samples : List AvgSample) : ℚ :=
  (samples.foldl (fun s p => s + p.lat) 0) / (samples.length : ℚ)

/-- The arithmetic mean of the sample longitudes (`src/app.js:1216`). -/
def avgLonOf (samples : List AvgSample) : ℚ :=
  (samples.foldl (fun s p => s + p.lon) 0) / (samples.length : ℚ)

/-- The outcome of `saveAveragedPoint`: either the "no samples" error
toast or the saved waypoint. -/
inductive SaveResult where
  | noSamples
  | saved (wp : Waypoint)
deriving DecidableEq

/-- `saveAveragedPoint` (`src/app.js:1213`): errors on an empty sample
list; otherwise builds a waypoint at the mean position with an
`AVG-`-tagged id and appends it to the waypoint collection.  The
averaging session itself is left untouched. -/
def saveAveragedPoint (g : Geo) (now : ℕ) (markType markNote : List Char)
    (st : AppState) : AppState × SaveResult :=
  if st.averaging.samples.isEmpty then (st, SaveResult.noSamples)
  else
    let avgLat := avgLatOf st.averaging.samples
    let avgLon := avgLonOf st.averaging.samples
    let utm := toUtm g avgLat avgLon
    let wp : Waypoint :=
      { id := avgId now, lat := avgLat, lon := avgLon,
        altitudeM := none, accuracyM := none,
        utmZone := utm.zone, utmBand := utm.band,
        easting := utm.easting, northing := utm.northing,
        timestamp := now, wpType := some markType, note := some markNote }
    ({ st with waypoints := st.waypoints ++ [wp] }, SaveResult.saved wp)

/-- The outcome of `onGotoUtmSubmit`: the invalid-input toast, or a
navigation target computed from the inverse projection. -/
inductive GotoResult where
  | invalid
  | navigate (isNorthern : Bool) (lat lon : ℚ)
deriving DecidableEq

/-- `onGotoUtmSubmit` (`src/app.js:564`): fails when zone, easting or
northing is not a finite number (modelled by `none`); hemisphere from the
uppercased band via the JavaScript comparison `band >= 'N'`, defaulting
to northern for an empty band; then the inverse projection gives the
target point. -/
def onGotoUtmSubmit (g : Geo) (zone : Option ℤ) (bandRaw : List Char)
    (easting northing : Option ℚ) : GotoResult :=
  let band := bandRaw.map Char.toUpper
  match zone, easting, northing with
  | some z, some e, some n =>
    let isNorthern := if band.isEmpty then true else ! jsStrLt band ['N']
    let p := g.tmInverse z isNorthern e n
    GotoResult.navigate isNorthern p.2 p.1
  | _, _, _ => GotoResult.invalid

/-- The 61-sample eviction scenario: pushing the values 0, 1, ..., 60
into an initially empty history buffer. -/
def histScenario : List ℚ :=
  (List.range 61).foldl (fun acc n => pushHist acc (n : ℚ)) []

/-- The first fix of the spec's end-to-end course scenario:
lat 35.6892, lon 51.3890, heading null. -/
def fixA : GeoFix :=
  { latitude := 35.6892, longitude := 51.389, altitude := none,
    accuracy := none, speed := none, heading := JsNum.null, timestamp := 0 }

/-- The second fix of the spec's end-to-end course scenario:
lat 35.6900, lon 51.3895, heading null. -/
def fixB : GeoFix :=
  { latitude := 35.69, longitude := 51.3895, altitude := none,
    accuracy := none, speed := none, heading := JsNum.null, timestamp := 1 }

/-- A low-accuracy fix (accuracy 25 m, above the default 20 m gate). -/
def lowAccFix : GeoFix :=
  { latitude := 35.6892, longitude := 51.389, altitude := some 1200,
    accuracy := some 25, speed := some 2, heading := JsNum.null,
    timestamp := 0 }

/-- A fresh app state with tracking disabled. -/
def stC1 : AppState :=
  { trackCoords := [], waypoints := [], settings := defaultSettings,
    speedHistory := [], altHistory := [], trackingEnabled := false,
    averaging := resetAveraging, loggingActive := false, csvRows := [] }

/-- An app state holding one averaging sample at (10, 20). -/
def stC2 : AppState :=
  { trackCoords := [], waypoints := [], settings := defaultSettings,
    speedHistory := [], altHistory := [], trackingEnabled := true,
    averaging := { active := false,
                   samples := [{ lat := 10, lon := 20, acc := none }] },
    loggingActive := false, csvRows := [] }

/-- A fresh app state with an active averaging session and CSV logging
on, used to evaluate the accuracy-gate theorems at a concrete input. -/
def stGate : AppState :=
  { trackCoords := [(35, 51)], waypoints := [], settings := defaultSettings,
    speedHistory := [], altHistory := [], trackingEnabled := true,
    averaging := { active := true, samples := [] }, loggingActive := true,
    csvRows := [] }

/-- A sample waypoint at (35.7, 51.4), used to evaluate the proximity
theorems at a concrete input. -/
def wpSample : Waypoint :=
  { id := ['1'], lat := 35.7, lon := 51.4, altitudeM := none,
    accuracyM := none, utmZone := 39, utmBand := 'S', easting := 536000,
    northing := 3950000, timestamp := 0, wpType := none, note := none }

/-- Auxiliary: band order transfers along the sorted band table. -/
theorem utmBands_getD_mono :
    ∀ k < 20, ∀ l < 20, k ≤ l →
      utmBands.getD k 'C' ≤ utmBands.getD l 'C' := by decide

/-- Auxiliary: the clamped band index is monotone in the latitude. -/
theorem bandIndex_mono {lat1 lat2 : ℚ} (h : lat1 ≤ lat2) :
    max 0 (min ((utmBands.length : ℤ) - 1) ⌊(lat1 + 80) / 8⌋) ≤
      max 0 (min ((utmBands.length : ℤ) - 1) ⌊(lat2 + 80) / 8⌋) := by
  have hfloor : ⌊(lat1 + 80) / 8⌋ ≤ ⌊(lat2 + 80) / 8⌋ := by
    apply Int.floor_le_floor
    linarith
  exact max_le_max le_rfl (min_le_min le_rfl hfloor)

/-- Auxiliary: the clamped band index lies in `[0, 19]`. -/
theorem bandIndex_bounds (i : ℤ) :
    0 ≤ max 0 (min ((utmBands.length : ℤ) - 1) i) ∧
      max 0 (min ((utmBands.length : ℤ) - 1) i) ≤ 19 := by
  constructor
  · exact le_max_left 0 _
  · have h1 : min ((utmBands.length : ℤ) - 1) i ≤ (utmBands.length : ℤ) - 1 :=
      min_le_left _ _
    have h2 : ((utmBands.length : ℤ) - 1) = 19 := by decide
    rw [h2] at h1
    exact max_le (by norm_num) h1

/-- Claim C6: for every finite (lat, lon), the forward transform's zone is
`⌊(lon+180)/6⌋ + 1` and depends only on longitude — in particular
`(toUtm lat 3).zone = 31` and `(toUtm lat (-180)).zone = 1` for every lat —
while the band is the letter of the 20-letter table
"CDEFGHJKLMNPQRSTUVWX" at index `⌊(lat+80)/8⌋` clamped to `[0,19]` and
depends only on latitude; consequently the band letter is non-decreasing
as latitude increases. -/
theorem utm_zone_band_spec (g g' : Geo) (lat lon lat' lon' : ℚ) :
    (toUtm g lat lon).zone = ⌊(lon + 180) / 6⌋ + 1 ∧
    (toUtm g lat lon).zone = (toUtm g' lat' lon).zone ∧
    (toUtm g lat 3).zone = 31 ∧
    (toUtm g lat (-180)).zone = 1 ∧
    (toUtm g lat lon).band =
      utmBands.getD (max 0 (min 19 ⌊(lat + 80) / 8⌋)).toNat 'C' ∧
    (toUtm g lat lon).band = (toUtm g' lat lon').band ∧
    (lat ≤ lat' → (toUtm g lat lon).band ≤ (toUtm g' lat' lon').band) := by
  refine ⟨rfl, rfl, ?_, ?_, ?_, rfl, ?_⟩
  · show getUtmZone 3 = 31
    unfold getUtmZone
    norm_num [Int.floor_eq_iff]
  · show getUtmZone (-180) = 1
    unfold getUtmZone
    norm_num
  · show latToBand lat = _
    unfold latToBand
    norm_num [utmBands]
  · intro hle
    show latToBand lat ≤ latToBand lat'
    unfold latToBand
    have hmono := bandIndex_mono hle
    have hb1 := bandIndex_bounds ⌊(lat + 80) / 8⌋
    have hb2 := bandIndex_bounds ⌊(lat' + 80) / 8⌋
    apply utmBands_getD_mono
    · omega
    · omega
    · omega

/-- Claim C1 (code bug): `onPosition` appends every fix's (lat, lon) to
the track unconditionally — the external `trackingEnabled` flag (declared
at `src/app.js:27` and toggled at `src/app.js:845`) is never consulted,
so a fix ingested while tracking is disabled still extends the track. -/
theorem track_append_ignores_tracking_flag :
    (∀ (g : Geo) (st : AppState) (fix : GeoFix),
      (onPosition g st fix).state.trackCoords =
        st.trackCoords ++ [(fix.latitude, fix.longitude)]) ∧
    stC1.trackingEnabled = false ∧
    (onPosition (constGeo 0 0) stC1 fixA).state.trackCoords =
      [((35.6892 : ℚ), (51.389 : ℚ))] := by
  refine ⟨?_, rfl, ?_⟩
  · intro g st fix
    cases hacc : fix.accuracy with
    | none => simp [onPosition, afterGate, hacc]
    | some a =>
      by_cases hgt : st.settings.maxAccM < a <;>
        simp [onPosition, afterGate, hacc, hgt]
  · simp [onPosition, afterGate, stC1, fixA, resetAveraging, defaultSettings,
      checkProximityAlerts]

/-- Claim C3: a fix whose accuracy exceeds the threshold (strictly, per
`accuracy > settings.maxAccM` with default `maxAccM = 20`) is still
appended to the track and to the speed/altitude history buffers (when
those fields are present), but no proximity alert is raised for it. -/
theorem accuracy_gate_still_records_fix (g : Geo) (st : AppState)
    (fix : GeoFix) (a : ℚ) (hacc : fix.accuracy = some a)
    (hgt : st.settings.maxAccM < a) :
    (onPosition g st fix).state.trackCoords =
      st.trackCoords ++ [(fix.latitude, fix.longitude)] ∧
    (onPosition g st fix).state.speedHistory =
      (match fix.speed with
        | some s => pushHist st.speedHistory (s * 3.6)
        | none => st.speedHistory) ∧
    (onPosition g st fix).state.altHistory =
      (match fix.altitude with
        | some al => pushHist st.altHistory al
        | none => st.altHistory) ∧
    (onPosition g st fix).alert = none ∧
    defaultSettings.maxAccM = 20 := by
  refine ⟨?_, ?_, ?_, ?_, rfl⟩ <;>
    cases hs : fix.speed <;> cases hal : fix.altitude <;>
      simp [onPosition, hacc, hgt, hs, hal]

/-- Witness for C3: a 25 m-accuracy fix against the default 20 m
threshold still lands in track and histories, with no alert. -/
theorem accuracy_gate_still_records_fix_witness :
    (onPosition (constGeo 0 0) stGate lowAccFix).state.trackCoords =
      [((35 : ℚ), (51 : ℚ)), ((35.6892 : ℚ), (51.389 : ℚ))] ∧
    (onPosition (constGeo 0 0) stGate lowAccFix).state.speedHistory =
      [(7.2 : ℚ)] ∧
    (onPosition (constGeo 0 0) stGate lowAccFix).state.altHistory =
      [(1200 : ℚ)] ∧
    (onPosition (constGeo 0 0) stGate lowAccFix).alert = none := by
  have h := accuracy_gate_still_records_fix (constGeo 0 0) stGate lowAccFix 25
    rfl (by norm_num [stGate, defaultSettings])
  refine ⟨?_, ?_, ?_, h.2.2.2.1⟩
  · rw [h.1]; norm_num [stGate, lowAccFix]
  · rw [h.2.1]; norm_num [stGate, lowAccFix, pushHist, HIST_LIMIT]
  · rw [h.2.2.1]; norm_num [stGate, lowAccFix, pushHist, HIST_LIMIT]

/-- Claim C10: a fix rejected by the accuracy gate stops processing early
— the averaging session is not appended to (even when active), the
navigation overlay is not recomputed, and no CSV row is logged. -/
theorem accuracy_gate_frame_effect (g : Geo) (st : AppState) (fix : GeoFix)
    (a : ℚ) (hacc : fix.accuracy = some a)
    (hgt : st.settings.maxAccM < a) :
    (onPosition g st fix).state.averaging = st.averaging ∧
    (onPosition g st fix).state.csvRows = st.csvRows ∧
    (onPosition g st fix).navUpdated = false := by
  refine ⟨?_, ?_, ?_⟩ <;> simp [onPosition, hacc, hgt]

/-- Witness for C10: with averaging active and CSV logging on, a 25 m
fix changes neither, and the overlay is not refreshed. -/
theorem accuracy_gate_frame_effect_witness :
    (onPosition (constGeo 0 0) stGate lowAccFix).state.averaging =
      stGate.averaging ∧
    (onPosition (constGeo 0 0) stGate lowAccFix).state.csvRows = [] ∧
    (onPosition (constGeo 0 0) stGate lowAccFix).navUpdated = false := by
  have h := accuracy_gate_frame_effect (constGeo 0 0) stGate lowAccFix 25
    rfl (by norm_num [stGate, defaultSettings])
  exact ⟨h.1, h.2.1, h.2.2⟩

/-- Claim C4: the derived course is the fix's heading when present and
not NaN; otherwise it is the great-circle initial bearing from the
previous fix's (lat, lon) to the current one, normalized via
`(bearing + 360) % 360` into [0, 360); with no previous fix the course is
null; and in the spec's two-fix scenario the second course is the bearing
from the first point to the second, not null. -/
theorem course_derivation_spec (g : Geo) (st : AppState) (fix : GeoFix)
    (h b : ℚ) :
    (fix.heading = JsNum.val h → (onPosition g st fix).course = some h) ∧
    ((fix.heading = JsNum.null ∨ fix.heading = JsNum.nan) →
      ∀ p, st.trackCoords.getLast? = some p →
        (onPosition g st fix).course =
          some (jsMod (g.bearing p.1 p.2 fix.latitude fix.longitude + 360)
            360)) ∧
    ((fix.heading = JsNum.null ∨ fix.heading = JsNum.nan) →
      st.trackCoords = [] → (onPosition g st fix).course = none) ∧
    (-180 < b → b ≤ 180 →
      0 ≤ jsMod (b + 360) 360 ∧ jsMod (b + 360) 360 < 360) ∧
    (st.trackCoords = [] →
      (onPosition g (onPosition g st fixA).state fixB).course =
        some (jsMod (g.bearing 35.6892 51.389 35.69 51.3895 + 360) 360)) := by
  have hcourse : ∀ (st2 : AppState) (fx : GeoFix),
      (onPosition g st2 fx).course =
        match fx.heading with
        | JsNum.val hv => some hv
        | _ => computeCourseFromTrack g st2.trackCoords fx.latitude
            fx.longitude := by
    intro st2 fx
    cases hacc : fx.accuracy with
    | none => simp [onPosition, afterGate, hacc]
    | some a =>
      by_cases hgt : st2.settings.maxAccM < a <;>
        simp [onPosition, afterGate, hacc, hgt]
  refine ⟨?_, ?_, ?_, ?_, ?_⟩
  · intro hh
    rw [hcourse st fix, hh]
  · intro hh p hlast
    rcases hh with hh | hh <;>
      rw [hcourse st fix, hh] <;> simp [computeCourseFromTrack, hlast]
  · intro hh hempty
    rcases hh with hh | hh <;>
      rw [hcourse st fix, hh] <;> simp [computeCourseFromTrack, hempty]
  · intro hb1 hb2
    have hx : (0 : ℚ) ≤ b + 360 := by linarith
    have hfl : ((⌊(b + 360) / 360⌋ : ℚ)) ≤ (b + 360) / 360 :=
      Int.floor_le _
    have hfu : (b + 360) / 360 < (⌊(b + 360) / 360⌋ : ℚ) + 1 :=
      Int.lt_floor_add_one _
    rw [jsMod, if_pos hx]
    constructor <;> nlinarith
  · intro hempty
    have h1 : (onPosition g st fixA).state.trackCoords =
        st.trackCoords ++ [(fixA.latitude, fixA.longitude)] := by
      simp [onPosition, afterGate, fixA]
    rw [hcourse _ fixB, h1, hempty]
    simp [fixA, fixB, computeCourseFromTrack]

/-- Witness for C4: running the two-fix scenario against a geometry whose
bearing is the constant 45 degrees yields course 45, not null. -/
theorem course_derivation_spec_witness :
    (onPosition (constGeo 45 0)
      (onPosition (constGeo 45 0) stC1 fixA).state fixB).course =
      some 45 := by
  have h := (course_derivation_spec (constGeo 45 0) stC1 fixB 0 0).2.2.2.2 rfl
  rw [h]
  norm_num [constGeo, jsMod]

set_option maxRecDepth 8000 in
/-- Auxiliary: evaluation of the 61-sample eviction scenario. -/
theorem histScenario_facts :
    histScenario.length = 60 ∧ ((0 : ℚ)) ∉ histScenario ∧
      ((60 : ℚ)) ∈ histScenario := by
  decide

/-- Claim C9: the speed/altitude history buffers hold at most 60 entries
after every ingestion, evict oldest-first when full, receive
`speed * 3.6` (km/h) only when speed is present and the altitude only
when present; pushing the 61 samples 0..60 into an empty buffer leaves
exactly 60 entries with sample 0 absent and sample 60 present. -/
theorem history_buffer_spec (g : Geo) (st : AppState) (fix : GeoFix)
    (h : List ℚ) (v : ℚ) :
    (st.speedHistory.length ≤ HIST_LIMIT →
      (onPosition g st fix).state.speedHistory.length ≤ HIST_LIMIT) ∧
    (st.altHistory.length ≤ HIST_LIMIT →
      (onPosition g st fix).state.altHistory.length ≤ HIST_LIMIT) ∧
    (h.length < HIST_LIMIT → pushHist h v = h ++ [v]) ∧
    (h.length = HIST_LIMIT → pushHist h v = h.tail ++ [v]) ∧
    ((onPosition g st fix).state.speedHistory =
      (match fix.speed with
        | some s => pushHist st.speedHistory (s * 3.6)
        | none => st.speedHistory)) ∧
    ((onPosition g st fix).state.altHistory =
      (match fix.altitude with
        | some al => pushHist st.altHistory al
        | none => st.altHistory)) ∧
    histScenario.length = 60 ∧
    ((0 : ℚ)) ∉ histScenario ∧ ((60 : ℚ)) ∈ histScenario := by
  have hpush : ∀ (l : List ℚ) (x : ℚ),
      l.length ≤ HIST_LIMIT → (pushHist l x).length ≤ HIST_LIMIT := by
    intro l x hl
    simp only [pushHist]
    split
    · simpa using hl
    · rename_i hle
      simp at hle ⊢
      omega
  have hspeed : (onPosition g st fix).state.speedHistory =
      (match fix.speed with
        | some s => pushHist st.speedHistory (s * 3.6)
        | none => st.speedHistory) := by
    cases hacc : fix.accuracy with
    | none => cases hs : fix.speed <;> simp [onPosition, afterGate, hacc, hs]
    | some a =>
      by_cases hgt : st.settings.maxAccM < a <;> cases hs : fix.speed <;>
        simp [onPosition, afterGate, hacc, hgt, hs]
  have halt : (onPosition g st fix).state.altHistory =
      (match fix.altitude with
        | some al => pushHist st.altHistory al
        | none => st.altHistory) := by
    cases hacc : fix.accuracy with
    | none =>
      cases hal : fix.altitude <;> simp [onPosition, afterGate, hacc, hal]
    | some a =>
      by_cases hgt : st.settings.maxAccM < a <;> cases hal : fix.altitude <;>
        simp [onPosition, afterGate, hacc, hgt, hal]
  refine ⟨?_, ?_, ?_, ?_, hspeed, halt, ?_, ?_, ?_⟩
  · intro hlen
    rw [hspeed]
    cases fix.speed with
    | none => exact hlen
    | some s => exact hpush _ _ hlen
  · intro hlen
    rw [halt]
    cases fix.altitude with
    | none => exact hlen
    | some al => exact hpush _ _ hlen
  · intro hlen
    simp only [pushHist]
    rw [if_neg]
    simp
    omega
  · intro hlen
    cases h with
    | nil => simp [HIST_LIMIT] at hlen
    | cons a as =>
      simp only [pushHist]
      rw [if_pos]
      · rfl
      · simp at hlen ⊢
        omega
  · exact histScenario_facts.1
  · exact histScenario_facts.2.1
  · exact histScenario_facts.2.2

/-- Witness for C9: pushing into a full 60-entry buffer evicts the head. -/
theorem history_buffer_spec_witness :
    (List.replicate 60 (0 : ℚ)).length = 60 ∧
    pushHist (List.replicate 60 (0 : ℚ)) 1 =
      (List.replicate 60 (0 : ℚ)).tail ++ [1] :=
  ⟨by simp,
    (history_buffer_spec (constGeo 0 0) stC1 fixA
      (List.replicate 60 (0 : ℚ)) 1).2.2.2.1 (by simp [HIST_LIMIT])⟩

/-- Auxiliary: starting the proximity scan from a candidate `w0`, the
fold returns the first waypoint of `w0 :: ws` attaining the minimum
distance — every waypoint is at least as far, and every waypoint strictly
before the winner is strictly farther. -/
theorem scan_go_spec (g : Geo) (lat lon : ℚ) :
    ∀ (ws : List Waypoint) (w0 : Waypoint),
      ∃ w pre post,
        List.foldl (scanStep g lat lon) (some (w0, distTo g lat lon w0)) ws =
          some (w, distTo g lat lon w) ∧
        w0 :: ws = pre ++ w :: post ∧
        (∀ w2 ∈ w0 :: ws, distTo g lat lon w ≤ distTo g lat lon w2) ∧
        (∀ w2 ∈ pre, distTo g lat lon w < distTo g lat lon w2) := by
  intro ws
  induction ws with
  | nil =>
    intro w0
    refine ⟨w0, [], [], rfl, rfl, ?_, ?_⟩
    · intro w2 hw2
      simp at hw2
      subst hw2
      exact le_refl _
    · intro w2 hw2
      simp at hw2
  | cons wh wt ih =>
    intro w0
    by_cases hlt : distTo g lat lon wh < distTo g lat lon w0
    · obtain ⟨w, pre, post, hfold, hdec, hmin, hstrict⟩ := ih wh
      have hwble : distTo g lat lon w ≤ distTo g lat lon wh :=
        hmin wh (List.mem_cons_self _ _)
      refine ⟨w, w0 :: pre, post, ?_, ?_, ?_, ?_⟩
      · rw [List.foldl_cons,
          show scanStep g lat lon (some (w0, distTo g lat lon w0)) wh =
            some (wh, distTo g lat lon wh) by simp [scanStep, hlt]]
        exact hfold
      · rw [List.cons_append, ← hdec]
      · intro w2 hw2
        rcases List.mem_cons.mp hw2 with h2 | h2
        · subst h2
          exact le_of_lt (lt_of_le_of_lt hwble hlt)
        · exact hmin w2 h2
      · intro w2 hw2
        rcases List.mem_cons.mp hw2 with h2 | h2
        · subst h2
          exact lt_of_le_of_lt hwble hlt
        · exact hstrict w2 h2
    · obtain ⟨w, pre, post, hfold, hdec, hmin, hstrict⟩ := ih w0
      have hstep : scanStep g lat lon (some (w0, distTo g lat lon w0)) wh =
          some (w0, distTo g lat lon w0) := by
        simp [scanStep, hlt]
      have hle : distTo g lat lon w0 ≤ distTo g lat lon wh := not_lt.mp hlt
      cases pre with
      | nil =>
        simp only [List.nil_append] at hdec
        injection hdec with hw hp
        subst hw
        subst hp
        refine ⟨w0, [], wh :: wt, ?_, rfl, ?_, ?_⟩
        · rw [List.foldl_cons, hstep]
          exact hfold
        · intro w2 hw2
          rcases List.mem_cons.mp hw2 with h2 | h2
          · subst h2
            exact le_refl _
          · rcases List.mem_cons.mp h2 with h3 | h3
            · subst h3
              exact hle
            · exact hmin w2 (List.mem_cons_of_mem _ h3)
        · intro w2 hw2
          simp at hw2
      | cons p0 pre2 =>
        rw [List.cons_append] at hdec
        injection hdec with hw hp
        subst hw
        have hw0w : distTo g lat lon w < distTo g lat lon w0 :=
          hstrict w0 (List.mem_cons_self _ _)
        refine ⟨w, w0 :: wh :: pre2, post, ?_, ?_, ?_, ?_⟩
        · rw [List.foldl_cons, hstep]
          exact hfold
        · rw [List.cons_append, List.cons_append, ← hp]
        · intro w2 hw2
          rcases List.mem_cons.mp hw2 with h2 | h2
          · subst h2
            exact le_of_lt hw0w
          · rcases List.mem_cons.mp h2 with h3 | h3
            · subst h3
              exact le_of_lt (lt_of_lt_of_le hw0w hle)
            · exact hmin w2 (List.mem_cons_of_mem _ h3)
        · intro w2 hw2
          rcases List.mem_cons.mp hw2 with h2 | h2
          · subst h2
            exact hw0w
          · rcases List.mem_cons.mp h2 with h3 | h3
            · subst h3
              exact lt_of_lt_of_le hw0w hle
            · exact hstrict w2 (List.mem_cons_of_mem _ h3)

/-- Claim C5: the proximity scan over a non-empty waypoint collection
returns the waypoint at minimum great-circle distance, first-encountered
winning exact ties, and an alert fires exactly when that minimum distance
is at most the alert radius (default 30 m): a waypoint at exactly 30.0 m
triggers, one at 30.1 m does not; an empty collection yields no alert. -/
theorem proximity_alert_spec (g : Geo) (s : Settings) (ws : List Waypoint)
    (lat lon : ℚ) (w0 : Waypoint) :
    checkProximityAlerts g s [] lat lon = none ∧
    (ws ≠ [] → ∃ w pre post,
      nearestScan g lat lon ws = some (w, distTo g lat lon w) ∧
      ws = pre ++ w :: post ∧
      (∀ w2 ∈ ws, distTo g lat lon w ≤ distTo g lat lon w2) ∧
      (∀ w2 ∈ pre, distTo g lat lon w < distTo g lat lon w2) ∧
      (checkProximityAlerts g s ws lat lon =
        if distTo g lat lon w ≤ s.alertRadiusM then
          some (w, distTo g lat lon w)
        else none)) ∧
    defaultSettings.alertRadiusM = 30 ∧
    checkProximityAlerts (constGeo 0 30) defaultSettings [w0] lat lon =
      some (w0, 30) ∧
    checkProximityAlerts (constGeo 0 (301 / 10)) defaultSettings [w0]
      lat lon = none := by
  refine ⟨rfl, ?_, rfl, ?_, ?_⟩
  · intro hne
    cases ws with
    | nil => exact absurd rfl hne
    | cons wh wt =>
      obtain ⟨w, pre, post, hfold, hdec, hmin, hstrict⟩ :=
        scan_go_spec g lat lon wt wh
      have hnear : nearestScan g lat lon (wh :: wt) =
          some (w, distTo g lat lon w) := by
        rw [nearestScan, List.foldl_cons]
        exact hfold
      refine ⟨w, pre, post, hnear, hdec, hmin, hstrict, ?_⟩
      simp [checkProximityAlerts, hnear]
  · simp [checkProximityAlerts, nearestScan, scanStep, distTo, constGeo,
      defaultSettings]
  · simp [checkProximityAlerts, nearestScan, scanStep, distTo, constGeo,
      defaultSettings]
    norm_num

/-- Witness for C5: the scan over a singleton collection returns that
waypoint. -/
theorem proximity_alert_spec_witness :
    nearestScan (constGeo 0 5) 35.7 51.4 [wpSample] ≠ none := by
  obtain ⟨w, pre, post, hnear, _⟩ :=
    (proximity_alert_spec (constGeo 0 5) defaultSettings [wpSample]
      35.7 51.4 wpSample).2.1 (by simp)
  rw [hnear]
  simp

/-- Auxiliary: every character produced by `Nat.toDigitsCore` in base 10
either comes from the accumulator or is a decimal digit character. -/
theorem toDigitsCore_chars :
    ∀ (fuel n : ℕ) (ds : List Char), ∀ c ∈ Nat.toDigitsCore 10 fuel n ds,
      c ∈ ds ∨ ∃ k, k < 10 ∧ c = Nat.digitChar k := by
  intro fuel
  induction fuel with
  | zero =>
    intro n ds c hc
    exact Or.inl hc
  | succ fuel ih =>
    intro n ds c hc
    simp only [Nat.toDigitsCore] at hc
    split at hc
    · rcases List.mem_cons.mp hc with h2 | h2
      · exact Or.inr ⟨n % 10, Nat.mod_lt n (by norm_num), h2⟩
      · exact Or.inl h2
    · rcases ih (n / 10) (Nat.digitChar (n % 10) :: ds) c hc with h2 | h2
      · rcases List.mem_cons.mp h2 with h3 | h3
        · exact Or.inr ⟨n % 10, Nat.mod_lt n (by norm_num), h3⟩
        · exact Or.inl h3
      · exact Or.inr h2

/-- Auxiliary: `Nat.toDigitsCore` never shrinks a non-empty accumulator
to the empty list. -/
theorem toDigitsCore_ne_nil :
    ∀ (fuel n : ℕ) (ds : List Char), ds ≠ [] →
      Nat.toDigitsCore 10 fuel n ds ≠ [] := by
  intro fuel
  induction fuel with
  | zero =>
    intro n ds hds
    exact hds
  | succ fuel ih =>
    intro n ds hds
    simp only [Nat.toDigitsCore]
    split
    · exact List.cons_ne_nil _ _
    · exact ih (n / 10) _ (List.cons_ne_nil _ _)

/-- Auxiliary: the decimal string of a natural number starts with a
decimal digit character. -/
theorem toDigits_head_digit (n : ℕ) :
    ∃ k cs, k < 10 ∧ Nat.toDigits 10 n = Nat.digitChar k :: cs := by
  have hne : Nat.toDigits 10 n ≠ [] := by
    rw [Nat.toDigits]
    simp only [Nat.toDigitsCore]
    split
    · exact List.cons_ne_nil _ _
    · exact toDigitsCore_ne_nil n (n / 10) _ (List.cons_ne_nil _ _)
  obtain ⟨c, cs, hcons⟩ := List.exists_cons_of_ne_nil hne
  have hc : c ∈ Nat.toDigits 10 n := by
    rw [hcons]
    exact List.mem_cons_self _ _
  rw [Nat.toDigits] at hc
  rcases toDigitsCore_chars (n + 1) n [] c hc with h2 | ⟨k, hk, hck⟩
  · simp at h2
  · exact ⟨k, cs, hk, by rw [hcons, hck]⟩

/-- Auxiliary: a manually-marked waypoint id (the decimal string of
`Date.now()`) never carries the averaged-waypoint tag. -/
theorem manual_id_no_avg_tag (n : ℕ) :
    (manualWaypointId n).take 4 ≠ avgTag := by
  obtain ⟨k, cs, hk, hrepr⟩ := toDigits_head_digit n
  intro hEq
  rw [manualWaypointId, jsNatToString, hrepr] at hEq
  have hhead : Nat.digitChar k = 'A' := by
    have h4 : (Nat.digitChar k :: cs).take 4 =
        Nat.digitChar k :: cs.take 3 := rfl
    rw [h4, avgTag] at hEq
    exact (List.cons.injEq _ _ _ _ ▸ hEq).1
  have hA : Nat.digitChar k ≠ 'A' := by
    interval_cases k <;> decide
  exact hA hhead

/-- Claim C2 (counterexample to the reset part): finalizing a session
holding one sample succeeds but leaves the sample list intact — the code
never clears `averaging.samples` in `saveAveragedPoint`. -/
theorem finalize_does_not_reset_counterexample :
    (saveAveragedPoint (constGeo 0 0) 0 [] [] stC2).2 ≠
      SaveResult.noSamples ∧
    (saveAveragedPoint (constGeo 0 0) 0 [] [] stC2).1.averaging.samples =
      [{ lat := 10, lon := 20, acc := none }] := by
  constructor
  · simp [saveAveragedPoint, stC2]
  · rfl

/-- Claim C2 (amended): finalizing with an empty sample list fails with
the "no samples" report and leaves the state unchanged; with a non-empty
list it appends exactly one waypoint whose lat/lon are the arithmetic
means of the samples and whose id carries the `AVG-` tag never used by
manually-marked waypoints — but the sample list is left unchanged rather
than being cleared. -/
theorem finalize_averaging_spec (g : Geo) (now : ℕ)
    (markType markNote : List Char) (st : AppState) :
    (st.averaging.samples = [] →
      saveAveragedPoint g now markType markNote st =
        (st, SaveResult.noSamples)) ∧
    (st.averaging.samples ≠ [] →
      ∃ wp, saveAveragedPoint g now markType markNote st =
          ({ st with waypoints := st.waypoints ++ [wp] },
            SaveResult.saved wp) ∧
        wp.lat = avgLatOf st.averaging.samples ∧
        wp.lon = avgLonOf st.averaging.samples ∧
        wp.id = avgId now ∧
        wp.id.take 4 = avgTag ∧
        (saveAveragedPoint g now markType markNote st).1.averaging =
          st.averaging) ∧
    (∀ m, (manualWaypointId m).take 4 ≠ avgTag) := by
  refine ⟨?_, ?_, fun m => manual_id_no_avg_tag m⟩
  · intro hemp
    simp [saveAveragedPoint, hemp]
  · intro hne
    have hempF : st.averaging.samples.isEmpty = false := by
      cases hs : st.averaging.samples with
      | nil => exact absurd hs hne
      | cons a as => rfl
    have htake : (avgId now).take 4 = avgTag := by
      rw [avgId, show (4 : ℕ) = avgTag.length from rfl, List.take_left]
    refine ⟨{ id := avgId now,
              lat := avgLatOf st.averaging.samples,
              lon := avgLonOf st.averaging.samples,
              altitudeM := none, accuracyM := none,
              utmZone := (toUtm g (avgLatOf st.averaging.samples)
                (avgLonOf st.averaging.samples)).zone,
              utmBand := (toUtm g (avgLatOf st.averaging.samples)
                (avgLonOf st.averaging.samples)).band,
              easting := (toUtm g (avgLatOf st.averaging.samples)
                (avgLonOf st.averaging.samples)).easting,
              northing := (toUtm g (avgLatOf st.averaging.samples)
                (avgLonOf st.averaging.samples)).northing,
              timestamp := now, wpType := some markType,
              note := some markNote },
            ?_, rfl, rfl, rfl, htake, ?_⟩ <;>
      simp [saveAveragedPoint, hempF]

/-- Witness for C2 at a concrete one-sample session. -/
theorem finalize_averaging_spec_witness :
    ∃ wp, saveAveragedPoint (constGeo 0 0) 7 [] [] stC2 =
        ({ stC2 with waypoints := stC2.waypoints ++ [wp] },
          SaveResult.saved wp) ∧
      wp.lat = avgLatOf stC2.averaging.samples ∧
      wp.lon = avgLonOf stC2.averaging.samples ∧
      wp.id = avgId 7 ∧
      wp.id.take 4 = avgTag ∧
      (saveAveragedPoint (constGeo 0 0) 7 [] [] stC2).1.averaging =
        stC2.averaging :=
  (finalize_averaging_spec (constGeo 0 0) 7 [] [] stC2).2.1 (by decide)

/-- Claim C8: the goto-UTM handler fails exactly when zone, easting or
northing is not a finite number; an empty band falls back to the northern
hemisphere; a supplied band letter selects the northern hemisphere
exactly when that letter (uppercased) is N or lexicographically later. -/
theorem goto_utm_validation_spec (g : Geo) (zone : Option ℤ)
    (band : List Char) (easting northing : Option ℚ) (z : ℤ) (e n : ℚ)
    (c : Char) :
    (onGotoUtmSubmit g zone band easting northing = GotoResult.invalid ↔
      zone = none ∨ easting = none ∨ northing = none) ∧
    (∃ lat lon, onGotoUtmSubmit g (some z) [] (some e) (some n) =
      GotoResult.navigate true lat lon) ∧
    (∃ lat lon, onGotoUtmSubmit g (some z) [c] (some e) (some n) =
      GotoResult.navigate (decide ('N' ≤ Char.toUpper c)) lat lon) := by
  refine ⟨?_, ?_, ?_⟩
  · rcases zone with _ | z2 <;> rcases easting with _ | e2 <;>
      rcases northing with _ | n2 <;> simp [onGotoUtmSubmit]
  · exact ⟨(g.tmInverse z true e n).2, (g.tmInverse z true e n).1, rfl⟩
  · have hb : (! jsStrLt ([c].map Char.toUpper) ['N']) =
        decide ('N' ≤ Char.toUpper c) := by
      by_cases hlt : Char.toUpper c < 'N'
      · simp [jsStrLt, hlt, not_le.mpr hlt]
      · simp [jsStrLt, hlt, not_lt.mp hlt]
    have hmain : onGotoUtmSubmit g (some z) [c] (some e) (some n) =
        GotoResult.navigate (! jsStrLt ([c].map Char.toUpper) ['N'])
          (g.tmInverse z (! jsStrLt ([c].map Char.toUpper) ['N']) e n).2
          (g.tmInverse z (! jsStrLt ([c].map Char.toUpper) ['N']) e n).1 :=
      rfl
    exact ⟨_, _, by rw [hmain, hb]⟩

/-- Witness for C8: missing northing is rejected as invalid input. -/
theorem goto_utm_validation_spec_witness :
    onGotoUtmSubmit (constGeo 0 0) (some 39) [] (some 500000) none =
      GotoResult.invalid :=
  (goto_utm_validation_spec (constGeo 0 0) (some 39) [] (some 500000) none
    39 500000 0 'S').1.mpr (Or.inr (Or.inr rfl))

/-- Witness for C6 at concrete inputs. -/
theorem utm_zone_band_spec_witness :
    ((35 : ℚ) ≤ 40) ∧
      (toUtm (constGeo 0 0) 35 51).band ≤ (toUtm (constGeo 0 0) 40 51).band :=
  ⟨by norm_num,
    (utm_zone_band_spec (constGeo 0 0) (constGeo 0 0) 35 51 40 51).2.2.2.2.2.2
      (by norm_num)⟩

end FieldGps
